import Mathlib

/-!
Shallow embedding of the chess MCP analyzer server (src/mcp_server.py) and
proofs about its classification pipeline, broadcast hub and engine lifecycle.

Conventions of the embedding:
* Python floats (scores, timestamps) are modelled as rationals; all numeric
  behavior the program relies on is exact comparison and subtraction.
* Fallible Python operations (engine spawn, analyse, websocket sends, the
  generative call) are modelled by oracle fields of an environment record:
  a Bool for operations whose result value is unused, an Except for the
  generative call whose string result matters.
* Each mutation of the global game_context dict in the source becomes a
  functional update of a GameContext record threaded through the model.
-/

deriving instance DecidableEq for Except

namespace ChessMCP

/-- A chess side, as the strings "white" / "black" used throughout the source. -/
inductive Side where
  | white
  | black
deriving DecidableEq, Repr

/-- The five move-quality tiers assigned by push_auto_analysis (source strings
"Blunder", "Mistake", "Inaccuracy", "Great Move", "Good"). -/
inductive Tier where
  | Blunder
  | Mistake
  | Inaccuracy
  | GreatMove
  | Good
deriving DecidableEq, Repr

/-- Tier classification, transcribed from the if/elif chain of
push_auto_analysis (mcp_server.py lines 518-537).  `delta` is the
centipawn loss, `material_lost` the truthiness of the material_lost
variable (a piece name string or None in the source). -/
def classify (delta : ℚ) (material_lost : Bool) : Tier :=
  if delta > 250 ∨ (material_lost = true ∧ delta > 100) then Tier.Blunder
  else if delta > 100 then Tier.Mistake
  else if delta > 30 then Tier.Inaccuracy
  else if delta < -50 then Tier.GreatMove
  else Tier.Good

/-- One record of game_context["analysis_history"]. -/
structure HistEntry where
  fen : String
  move : Option String
  cp_loss : ℚ
  turn : Side
deriving DecidableEq, Repr

/-- One entry of game_context["hot_squares"]: a square name plus the
marker kind ("gold" or "red"). -/
structure HotSquare where
  square : String
  mark : String
deriving DecidableEq, Repr

/-- The fields of the global game_context dict that the analysis pipeline
reads or writes. -/
structure GameContext where
  prev_score : ℚ
  last_move : Option String
  player_color : Side
  analyze_cpu : Bool
  analysis_history : List HistEntry
  last_critical_tip_time : ℚ
  last_move_quality : Tier
  hot_squares : List HotSquare
  active_challenge : Option String
deriving DecidableEq, Repr

/-- Pieces of the html message a coach_tip event carries, abstracted from the
concrete html strings assembled in push_auto_analysis.  Each constructor
corresponds to one fragment the source concatenates. -/
inductive MsgPart where
  /-- the tier badge header div; the flag marks the CPU-labelled variant -/
  | tierBadge (t : Tier) (cpuLabel : Bool)
  /-- the fixed message chosen for a CPU move of the given tier -/
  | cpuTemplate (t : Tier)
  /-- the fixed message chosen for a non-critical player move of the given tier -/
  | simpleTemplate (t : Tier)
  /-- the engine-may-activate-its-piece hint appended on the cheap player path -/
  | engineHint (piece : String)
  /-- the holding text shown while awaiting the generative call -/
  | analyzingNote
  /-- text produced by the generative backend -/
  | llmText (s : String)
  /-- the fixed fallback sentence used when no generated text is available -/
  | fallbackText
  /-- the Better-move line citing the engine best move in algebraic form -/
  | betterMove (san : String)
  /-- the highlighted-square footnote -/
  | hotSquaresNote
deriving DecidableEq, Repr

/-- Does a message part come from the generative backend? -/
def isGeneratedPart : MsgPart → Bool
  | MsgPart.llmText _ => true
  | _ => false

/-- Does a message part cite a best move in move notation? -/
def isBetterMovePart : MsgPart → Bool
  | MsgPart.betterMove _ => true
  | _ => false

/-- A coach_tip event as broadcast by the pipeline. -/
structure CoachTip where
  parts : List MsgPart
  hot_squares : List HotSquare
  challenge : Option String
deriving DecidableEq, Repr

instance : Inhabited CoachTip := ⟨⟨[], [], none⟩⟩

/-- A coach_tip carries only locally assembled (templated) fragments. -/
def templatedOnly (e : CoachTip) : Bool :=
  e.parts.all (fun p => !isGeneratedPart p)

/-- Facts about the engine principal variation that push_auto_analysis
extracts from analysis_after[0]["pv"][0]. -/
structure PvInfo where
  /-- current_board.is_capture(pv[0]) -/
  respIsCapture : Bool
  /-- piece name of current_board.piece_at(pv[0].to_square), when present -/
  capturedPiece : Option String
  /-- pv[0] in current_board.legal_moves -/
  candidateLegal : Bool
  /-- result of current_board.san(pv[0]) when that call succeeds -/
  san : Option String
  /-- pv[0].uci() -/
  uci : String
  /-- square_name(pv[0].to_square) -/
  toSquare : String
  /-- piece name of current_board.piece_at(pv[0].from_square), when present -/
  fromPiece : Option String
deriving DecidableEq, Repr

/-- The external world of one push_auto_analysis run: the fen argument, the
outcomes of every fallible external operation, and the clock. -/
structure Env where
  /-- the fen argument of push_auto_analysis -/
  fen : String
  /-- os.path.exists(STOCKFISH_PATH) -/
  stockfishExists : Bool
  /-- chess.Board(fen) succeeds -/
  fenOk : Bool
  /-- current_board.turn, the side to move in the post-move position -/
  sideToMoveAfter : Side
  /-- chess.engine.popen_uci succeeds -/
  spawnOk : Bool
  /-- engine.analyse succeeds and returns a non-empty list -/
  analyseOk : Bool
  /-- top_pv["score"].relative.score(mate_score=10000) -/
  scoreAfterRaw : Option Int
  /-- top_pv.get("pv") with the facts extracted from its head move -/
  pv : Option PvInfo
  /-- chess.Move.from_uci(last_move_uci) succeeds -/
  lastMoveParses : Bool
  /-- time.time() -/
  currentTime : ℚ
  /-- os.getenv("OPENAI_API_KEY") is set -/
  apiKeySet : Bool
  /-- outcome of the generative chat call; the string is the content already
  stripped of surrounding whitespace -/
  llmOutcome : Except Unit String
deriving Repr

/-- Result of one push_auto_analysis run: the final game_context, the list of
events broadcast (in order), how many generative calls were made, and the
engine process lifecycle facts. -/
structure PipeResult where
  ctx : GameContext
  events : List CoachTip
  llmCalls : Nat
  engineSpawned : Bool
  engineTerminated : Bool
deriving DecidableEq, Repr

/-- side_who_moved = "white" if current_board.turn == chess.BLACK else "black". -/
def sideWhoMoved (env : Env) : Side :=
  if env.sideToMoveAfter = Side.black then Side.white else Side.black

/-- is_player_move = (side_who_moved == player_color). -/
def isPlayerMove (env : Env) (ctx : GameContext) : Bool :=
  sideWhoMoved env = ctx.player_color

/-- score_after_player_pov = -(score_after_raw if score_after_raw is not None
else 0): the relative score negated into the perspective of the side that
just moved. -/
def scoreAfterPlayerPov (env : Env) : ℚ :=
  -((env.scoreAfterRaw.getD 0 : Int) : ℚ)

/-- delta = prev_score - score_after_player_pov. -/
def deltaOf (env : Env) (ctx : GameContext) : ℚ :=
  ctx.prev_score - scoreAfterPlayerPov env

/-- The material_lost variable: set to the captured piece name when the last
move string is present with length at least 4, parses as UCI, and the engine
reply move is a capture of a present piece. -/
def materialLostOf (env : Env) (ctx : GameContext) : Option String :=
  match ctx.last_move with
  | none => none
  | some mv =>
    if 4 ≤ mv.length then
      if env.lastMoveParses then
        match env.pv with
        | some p => if p.respIsCapture then p.capturedPiece else none
        | none => none
      else none
    else none

/-- The tier push_auto_analysis assigns to the current move event. -/
def moveTier (env : Env) (ctx : GameContext) : Tier :=
  classify (deltaOf env ctx) (materialLostOf env ctx).isSome

/-- is_critical = classification in ("Blunder", "Mistake"). -/
def isCriticalOf (env : Env) (ctx : GameContext) : Bool :=
  moveTier env ctx = Tier.Blunder ∨ moveTier env ctx = Tier.Mistake

/-- The hot_squares list built from the engine reply move. -/
def hotSquaresOf (env : Env) : List HotSquare :=
  match env.pv with
  | none => []
  | some p =>
    if p.respIsCapture then
      [⟨p.toSquare, "gold"⟩, ⟨p.toSquare, "red"⟩]
    else
      [⟨p.toSquare, "gold"⟩]

/-- The game_context after the scoring/classification stage: prev_score,
last_move_quality, analysis_history, hot_squares and active_challenge
updated exactly as in the source. -/
def ctxAfterScoring (env : Env) (ctx : GameContext) : GameContext :=
  { ctx with
    prev_score := scoreAfterPlayerPov env
    last_move_quality := moveTier env ctx
    analysis_history := ctx.analysis_history ++
      [⟨env.fen, ctx.last_move, deltaOf env ctx, sideWhoMoved env⟩]
    hot_squares := hotSquaresOf env
    active_challenge := none }

/-- The game_context after the pacing stage: when the move is critical the
last_critical_tip_time is set to the current time, unconditionally. -/
def ctxAfterPacing (env : Env) (ctx : GameContext) : GameContext :=
  if isCriticalOf env ctx then
    { ctxAfterScoring env ctx with last_critical_tip_time := env.currentTime }
  else
    ctxAfterScoring env ctx

/-- The pacing-gate suppression test: a non-player, non-critical move within
5 time units of the last critical tip. -/
def suppressedOf (env : Env) (ctx : GameContext) : Bool :=
  !isPlayerMove env ctx && !isCriticalOf env ctx &&
    decide (env.currentTime - ctx.last_critical_tip_time < 5)

/-- The single coach_tip event of the CPU (non-player) cost-gate branch. -/
def cpuTip (env : Env) (ctx : GameContext) : CoachTip :=
  ⟨[MsgPart.tierBadge (moveTier env ctx) true,
    MsgPart.cpuTemplate (moveTier env ctx)],
   hotSquaresOf env, none⟩

/-- The single coach_tip event of the cheap player branch (tier not critical):
badge, templated sentence, and the engine-piece hint when a pv exists. -/
def simpleTip (env : Env) (ctx : GameContext) : CoachTip :=
  ⟨[MsgPart.tierBadge (moveTier env ctx) false,
    MsgPart.simpleTemplate (moveTier env ctx)] ++
     (match env.pv with
      | some p => [MsgPart.engineHint (p.fromPiece.getD "piece")]
      | none => []),
   hotSquaresOf env, none⟩

/-- The immediate holding event broadcast at the start of the expensive path. -/
def holdingTip (env : Env) (ctx : GameContext) : CoachTip :=
  ⟨[MsgPart.tierBadge (moveTier env ctx) false, MsgPart.analyzingNote],
   hotSquaresOf env, none⟩

/-- best_move_san: the engine candidate converted to SAN (falling back to its
UCI string if SAN conversion fails), but only when the candidate passed the
legality re-check; None otherwise. -/
def bestMoveSanOf (env : Env) : Option String :=
  match env.pv with
  | none => none
  | some p => if p.candidateLegal then some (p.san.getD p.uci) else none

/-- llm_response: the stripped content of the generative call, made only when
an api key is set and a verified legal best move exists; None on backend
failure or when the call is skipped. -/
def llmResponseOf (env : Env) : Option String :=
  if env.apiKeySet && (bestMoveSanOf env).isSome then
    match env.llmOutcome with
    | Except.ok s => some s
    | Except.error _ => none
  else none

/-- The fallback fragment list: the fixed fallback sentence, then the
Better-move line only when a pv exists and its SAN conversion succeeds
(the source swallows the SAN exception and appends nothing). -/
def fallbackParts (env : Env) : List MsgPart :=
  MsgPart.fallbackText ::
    (match env.pv with
     | some p =>
       (match p.san with
        | some s => [MsgPart.betterMove s]
        | none => [])
     | none => [])

/-- The fragment list of the final expensive-path message: badge, then either
the generated text (when truthy) or the fallback fragments, then the
hot-squares footnote when hot squares exist. -/
def finalParts (env : Env) (ctx : GameContext) : List MsgPart :=
  MsgPart.tierBadge (moveTier env ctx) false ::
    ((match llmResponseOf env with
      | some s => if s = "" then fallbackParts env else [MsgPart.llmText s]
      | none => fallbackParts env) ++
     (if (hotSquaresOf env).isEmpty then [] else [MsgPart.hotSquaresNote]))

/-- The final coach_tip event of the expensive path. -/
def finalTip (env : Env) (ctx : GameContext) : CoachTip :=
  ⟨finalParts env ctx, hotSquaresOf env, none⟩

/-- Result of a run that ended before any engine process was spawned. -/
def noRun (ctx : GameContext) : PipeResult :=
  ⟨ctx, [], 0, false, false⟩

/-- Functional model of push_auto_analysis (mcp_server.py lines 457-769),
with the if/else chain mirroring the source's early returns:
missing binary, bad fen, CPU-analysis off, spawn failure, analyse failure,
pacing suppression, CPU branch, cheap player branch, expensive path.
The engine process is spawned after the CPU-analysis check and terminated
by the try/finally on every later path. -/
def pushAutoAnalysis (env : Env) (ctx : GameContext) : PipeResult :=
  if !env.stockfishExists then noRun ctx
  else if !env.fenOk then noRun ctx
  else if !isPlayerMove env ctx && !ctx.analyze_cpu then noRun ctx
  else if !env.spawnOk then noRun ctx
  else if !env.analyseOk then ⟨ctx, [], 0, true, true⟩
  else if suppressedOf env ctx then
    ⟨ctxAfterPacing env ctx, [], 0, true, true⟩
  else if !isPlayerMove env ctx then
    ⟨ctxAfterPacing env ctx, [cpuTip env ctx], 0, true, true⟩
  else if !isCriticalOf env ctx then
    ⟨ctxAfterPacing env ctx, [simpleTip env ctx], 0, true, true⟩
  else
    ⟨ctxAfterPacing env ctx,
     [holdingTip env ctx, finalTip env ctx],
     (if env.apiKeySet && (bestMoveSanOf env).isSome then 1 else 0),
     true, true⟩

/-- The run reaches the scoring stage: binary present, fen parses, the move
is analyzed at all, and spawn and analyse succeed. -/
def runsFull (env : Env) (ctx : GameContext) : Bool :=
  env.stockfishExists && env.fenOk &&
    (isPlayerMove env ctx || ctx.analyze_cpu) &&
    env.spawnOk && env.analyseOk

/-! ## ConnectionManager: the broadcast hub -/

/-- The ConnectionManager state: its list of active websocket connections,
identified by numeric ids. -/
structure ConnectionManager where
  active_connections : List Nat
deriving DecidableEq, Repr

/-- ConnectionManager.disconnect: remove the websocket from the list when
present (a no-op otherwise). -/
def ConnectionManager.disconnect (m : ConnectionManager) (ws : Nat) :
    ConnectionManager :=
  ⟨m.active_connections.erase ws⟩

/-- The delivery loop of ConnectionManager.broadcast over a fixed list:
each send is attempted inside try/except, a failure is swallowed and the
loop continues.  Returns the connections the event actually reached. -/
def broadcastDeliver (send : Nat → Except Unit Unit) : List Nat → List Nat
  | [] => []
  | c :: rest =>
    match send c with
    | Except.ok _ => c :: broadcastDeliver send rest
    | Except.error _ => broadcastDeliver send rest

/-- ConnectionManager.broadcast (mcp_server.py lines 85-100): every
per-connection exception is caught, so the call always returns normally
(modelled as Except.ok), the connection list is not mutated, and the
event reaches exactly the connections whose send succeeded. -/
def ConnectionManager.broadcast (m : ConnectionManager)
    (send : Nat → Except Unit Unit) :
    Except Unit (ConnectionManager × List Nat) :=
  Except.ok (m, broadcastDeliver send m.active_connections)

/-- The for-loop of broadcast as Python executes it when the connection list
is mutated concurrently: iteration is by index into the live list.  `sched i`
is the connection (if any) on which the transport's disconnect callback runs
while the send to element `i` is suspended.  The fuel argument bounds the
loop; since disconnects never lengthen the list, the initial list length is
always enough fuel.  Returns the final list and the delivery order. -/
def broadcastLoopInterleaved (sched : Nat → Option Nat) :
    Nat → List Nat → Nat → List Nat → List Nat × List Nat
  | 0, conns, _, delivered => (conns, delivered)
  | fuel + 1, conns, idx, delivered =>
    if h : idx < conns.length then
      broadcastLoopInterleaved sched fuel
        (match sched idx with
         | some w => conns.erase w
         | none => conns)
        (idx + 1)
        (delivered ++ [conns.get ⟨idx, h⟩])
    else (conns, delivered)

/-- One broadcast run over the live list with interleaved disconnects. -/
def broadcastRun (sched : Nat → Option Nat) (conns : List Nat) :
    List Nat × List Nat :=
  broadcastLoopInterleaved sched conns.length conns 0 []

/-- The two messages connect sends personally to the new subscriber. -/
inductive PersonalMsg where
  | greeting
  | stateSnapshot
deriving DecidableEq, Repr

/-- Result of ConnectionManager.connect: the returned Bool, the manager
afterwards, the personal messages delivered to the new subscriber, and the
number of broadcast calls made (the source makes none). -/
structure ConnectResult where
  success : Bool
  manager : ConnectionManager
  sentTo : List (Nat × PersonalMsg)
  broadcasts : Nat
deriving DecidableEq, Repr

/-- ConnectionManager.connect (mcp_server.py lines 57-68): accept, append to
active_connections, send the greeting then the state snapshot personally;
any exception yields return False, with no removal of an already-appended
subscriber. -/
def ConnectionManager.connect (m : ConnectionManager) (ws : Nat)
    (acceptOk greetOk stateOk : Bool) : ConnectResult :=
  if !acceptOk then ⟨false, m, [], 0⟩
  else
    let m1 : ConnectionManager := ⟨m.active_connections ++ [ws]⟩
    if !greetOk then ⟨false, m1, [], 0⟩
    else if !stateOk then ⟨false, m1, [(ws, PersonalMsg.greeting)], 0⟩
    else ⟨true, m1,
          [(ws, PersonalMsg.greeting), (ws, PersonalMsg.stateSnapshot)], 0⟩

/-! ## Engine process lifecycle per operation -/

/-- Whether an operation spawned an engine process and whether it terminated
it before completing. -/
structure EngineUse where
  spawned : Bool
  terminated : Bool
deriving DecidableEq, Repr

/-- Engine lifecycle of coach_query (mcp_server.py lines 181-199): the spawn,
analyse and quit calls sit in sequence inside a try/except block, so an
analyse exception is caught after skipping quit. -/
def coachQueryEngineUse (pathExists fenOk spawnOk analyseOk : Bool) :
    EngineUse :=
  if !pathExists then ⟨false, false⟩
  else if !fenOk then ⟨false, false⟩
  else if !spawnOk then ⟨false, false⟩
  else if !analyseOk then ⟨true, false⟩
  else ⟨true, true⟩

/-- Engine lifecycle of the drill section of game_review (mcp_server.py lines
278-293): same try/except shape as coach_query, entered only when a biggest
blunder was found. -/
def gameReviewEngineUse (hasBlunder pathExists fenOk spawnOk analyseOk : Bool) :
    EngineUse :=
  if !hasBlunder then ⟨false, false⟩
  else if !pathExists then ⟨false, false⟩
  else if !fenOk then ⟨false, false⟩
  else if !spawnOk then ⟨false, false⟩
  else if !analyseOk then ⟨true, false⟩
  else ⟨true, true⟩

/-- Engine lifecycle of get_board_analysis (mcp_server.py lines 779-795):
spawn, then a try/finally whose finally quits the engine, so termination
happens whether or not analyse raises. -/
def getBoardAnalysisEngineUse (pathExists spawnOk analyseOk : Bool) :
    EngineUse :=
  if !pathExists then ⟨false, false⟩
  else if !spawnOk then ⟨false, false⟩
  else ⟨true, true⟩

/-- Engine lifecycle of play_engine_move (mcp_server.py lines 824-846):
spawn, then a try/finally whose finally quits the engine. -/
def playEngineMoveEngineUse (gameOver spawnOk playOk : Bool) : EngineUse :=
  if gameOver then ⟨false, false⟩
  else if !spawnOk then ⟨false, false⟩
  else ⟨true, true⟩

/-- How an MCP tool call ends: a normal string return, or an exception
propagating to the caller. -/
inductive ToolOutcome where
  | ok (s : String)
  | raised
deriving DecidableEq, Repr

/-- Control flow of play_engine_move (mcp_server.py lines 824-846) as seen by
its caller.  There is no existence check on STOCKFISH_PATH and no exception
handler: a spawn failure (in particular a missing binary) raises out of the
tool; a play failure also raises, after the finally block quits the engine. -/
def play_engine_move (gameOver pathMissing playOk : Bool) : ToolOutcome :=
  if gameOver then ToolOutcome.ok ("Game is already over.")
  else if pathMissing then ToolOutcome.raised
  else if !playOk then ToolOutcome.raised
  else ToolOutcome.ok ("Engine plays")

/-- Control flow of get_board_analysis (mcp_server.py lines 779-795): a
missing binary is checked first and reported as a normal error string. -/
def get_board_analysis (pathMissing spawnOk analyseOk : Bool) : ToolOutcome :=
  if pathMissing then ToolOutcome.ok ("Error: Stockfish not found.")
  else if !spawnOk then ToolOutcome.raised
  else if !analyseOk then ToolOutcome.raised
  else ToolOutcome.ok ("FEN and evaluation")

/-! ## Sequences of move events -/

/-- Run the pipeline over a sequence of move events, threading the
game_context and summing the generative-call counts. -/
def runSeq : List Env → GameContext → GameContext × Nat
  | [], ctx => (ctx, 0)
  | e :: es, ctx =>
    let r := pushAutoAnalysis e ctx
    let rest := runSeq es r.ctx
    (rest.1, r.llmCalls + rest.2)

/-- A move event that must stay on the cheap path: the mover is not the
coached side, or the tier is Good, Inaccuracy or Great Move. -/
def cheapMove (env : Env) (ctx : GameContext) : Prop :=
  isPlayerMove env ctx = false ∨ moveTier env ctx = Tier.Good ∨
    moveTier env ctx = Tier.Inaccuracy ∨ moveTier env ctx = Tier.GreatMove

/-- Every event of the sequence is a cheap move at the context it runs in. -/
def allCheap : List Env → GameContext → Prop
  | [], _ => True
  | e :: es, ctx => cheapMove e ctx ∧ allCheap es (pushAutoAnalysis e ctx).ctx

/-! ## The spec side of the refinement claim about score perspective -/

/-- Modelled from the spec: the score from the coached side's perspective.
The spec states that both the stored rolling baseline and the current score
are expressed from one fixed side's perspective, the coached side's.  The
engine's relative score is from the side to move, which is the opponent of
the mover; from the coached side's view it is negated exactly when the mover
is the coached side. -/
def coachedPovScore (coached : Side) (mover : Side) (raw : Int) : ℚ :=
  if mover = coached then -(raw : ℚ) else (raw : ℚ)

/-! ## Concrete inputs used by counterexamples and witnesses -/

/-- A baseline game_context: coached side white, CPU analysis off. -/
def ctxBase : GameContext :=
  { prev_score := 30
    last_move := some ("e2e4")
    player_color := Side.white
    analyze_cpu := false
    analysis_history := []
    last_critical_tip_time := 0
    last_move_quality := Tier.Good
    hot_squares := []
    active_challenge := none }

/-- ctxBase with CPU analysis enabled. -/
def ctxCpuOn : GameContext := { ctxBase with analyze_cpu := true }

/-- ctxBase with a zero baseline and CPU analysis enabled. -/
def ctxZero : GameContext := { ctxBase with prev_score := 0, analyze_cpu := true }

/-- ctxBase with a large baseline, so the next coached move scores as a
Blunder. -/
def ctxBlunder : GameContext := { ctxBase with prev_score := 300 }

/-- A baseline environment: everything succeeds, white (the coached side)
just moved, relative score 0, no pv facts, no api key. -/
def envBase : Env :=
  { fen := "fen-after-move"
    stockfishExists := true
    fenOk := true
    sideToMoveAfter := Side.black
    spawnOk := true
    analyseOk := true
    scoreAfterRaw := some 0
    pv := none
    lastMoveParses := true
    currentTime := 100
    apiKeySet := false
    llmOutcome := Except.error () }

/-- Black (the non-coached side) just moved and the position scores 100 for
white (the side to move), so the mover loses 130 against a baseline of 30:
a Mistake by the CPU. -/
def envCpuMistake : Env :=
  { envBase with sideToMoveAfter := Side.white, scoreAfterRaw := some 100 }

/-- A quiet CPU move (tier Good) arriving 2 time units after the last
critical tip. -/
def envCpuQuiet : Env :=
  { envBase with sideToMoveAfter := Side.white, currentTime := 2 }

/-- The same quiet CPU move arriving 6 time units after the last critical
tip. -/
def envCpuLater : Env := { envCpuQuiet with currentTime := 6 }

/-- An engine pv whose candidate move fails the legality re-check and whose
SAN conversion raises. -/
def pvIllegal : PvInfo :=
  { respIsCapture := false
    capturedPiece := none
    candidateLegal := false
    san := none
    uci := "e2e5"
    toSquare := "e5"
    fromPiece := some ("Pawn") }

/-- An engine pv with a verified legal candidate best move. -/
def pvLegal : PvInfo :=
  { respIsCapture := false
    capturedPiece := none
    candidateLegal := true
    san := some ("Nf3")
    uci := "g1f3"
    toSquare := "f3"
    fromPiece := some ("Knight") }

/-- A coached-side Blunder whose engine candidate fails the legality
re-check, with an api key set and a generative backend that would answer. -/
def envIllegalBest : Env :=
  { envBase with
    apiKeySet := true
    llmOutcome := Except.ok ("some text")
    pv := some pvIllegal }

/-- A coached-side Blunder with a verified legal best move whose generative
call fails. -/
def envBackendFail : Env :=
  { envIllegalBest with pv := some pvLegal, llmOutcome := Except.error () }

/-- The environment when the engine binary is absent. -/
def envNoEngine : Env := { envBase with stockfishExists := false }

/-- A send function that fails for connection 2 and succeeds elsewhere. -/
def sendFail2 : Nat → Except Unit Unit :=
  fun n => if n = 2 then Except.error () else Except.ok ()

/-- A disconnect interleaving: while the send to element 0 is suspended, the
transport disconnect callback removes connection 1. -/
def schedDisc1 : Nat → Option Nat :=
  fun i => if i = 0 then some 1 else none

/-! ## Helper lemmas about the pipeline -/

theorem ctxAfterPacing_prev_score (env : Env) (ctx : GameContext) :
    (ctxAfterPacing env ctx).prev_score = scoreAfterPlayerPov env := by
  unfold ctxAfterPacing ctxAfterScoring
  split <;> rfl

theorem ctxAfterPacing_time_of_critical (env : Env) (ctx : GameContext)
    (h : isCriticalOf env ctx = true) :
    (ctxAfterPacing env ctx).last_critical_tip_time = env.currentTime := by
  unfold ctxAfterPacing
  rw [if_pos h]

theorem runsFull_parts (env : Env) (ctx : GameContext)
    (h : runsFull env ctx = true) :
    env.stockfishExists = true ∧ env.fenOk = true ∧
      (isPlayerMove env ctx = true ∨ ctx.analyze_cpu = true) ∧
      env.spawnOk = true ∧ env.analyseOk = true := by
  simp only [runsFull, Bool.and_eq_true, Bool.or_eq_true] at h
  exact ⟨h.1.1.1.1, h.1.1.1.2, h.1.1.2, h.1.2, h.2⟩

theorem run_suppressed (env : Env) (ctx : GameContext)
    (h : runsFull env ctx = true) (hs : suppressedOf env ctx = true) :
    pushAutoAnalysis env ctx = ⟨ctxAfterPacing env ctx, [], 0, true, true⟩ := by
  obtain ⟨h1, h2, h3, h4, h5⟩ := runsFull_parts env ctx h
  unfold pushAutoAnalysis
  rcases h3 with h3 | h3 <;> simp [h1, h2, h3, h4, h5, hs]

theorem run_cpu (env : Env) (ctx : GameContext)
    (h : runsFull env ctx = true) (hp : isPlayerMove env ctx = false)
    (hs : suppressedOf env ctx = false) :
    pushAutoAnalysis env ctx =
      ⟨ctxAfterPacing env ctx, [cpuTip env ctx], 0, true, true⟩ := by
  obtain ⟨h1, h2, h3, h4, h5⟩ := runsFull_parts env ctx h
  rcases h3 with h3 | h3
  · rw [h3] at hp; exact absurd hp (by simp)
  · unfold pushAutoAnalysis
    simp [h1, h2, h3, h4, h5, hs, hp]

theorem run_simple (env : Env) (ctx : GameContext)
    (h : runsFull env ctx = true) (hp : isPlayerMove env ctx = true)
    (hc : isCriticalOf env ctx = false) :
    pushAutoAnalysis env ctx =
      ⟨ctxAfterPacing env ctx, [simpleTip env ctx], 0, true, true⟩ := by
  obtain ⟨h1, h2, h3, h4, h5⟩ := runsFull_parts env ctx h
  unfold pushAutoAnalysis
  simp [h1, h2, h4, h5, hp, hc, suppressedOf]

theorem run_stage3 (env : Env) (ctx : GameContext)
    (h : runsFull env ctx = true) (hp : isPlayerMove env ctx = true)
    (hc : isCriticalOf env ctx = true) :
    pushAutoAnalysis env ctx =
      ⟨ctxAfterPacing env ctx, [holdingTip env ctx, finalTip env ctx],
       (if env.apiKeySet && (bestMoveSanOf env).isSome then 1 else 0),
       true, true⟩ := by
  obtain ⟨h1, h2, h3, h4, h5⟩ := runsFull_parts env ctx h
  unfold pushAutoAnalysis
  simp [h1, h2, h4, h5, hp, hc, suppressedOf]

theorem pushAutoAnalysis_ctx (env : Env) (ctx : GameContext)
    (h : runsFull env ctx = true) :
    (pushAutoAnalysis env ctx).ctx = ctxAfterPacing env ctx := by
  by_cases hp : isPlayerMove env ctx = true
  · by_cases hc : isCriticalOf env ctx = true
    · rw [run_stage3 env ctx h hp hc]
    · rw [run_simple env ctx h hp (by simpa using hc)]
  · have hp2 : isPlayerMove env ctx = false := by simpa using hp
    by_cases hs : suppressedOf env ctx = true
    · rw [run_suppressed env ctx h hs]
    · rw [run_cpu env ctx h hp2 (by simpa using hs)]

theorem llmCalls_zero_of_cheap (env : Env) (ctx : GameContext)
    (h : cheapMove env ctx) :
    (pushAutoAnalysis env ctx).llmCalls = 0 := by
  have hcheap : isPlayerMove env ctx = false ∨ isCriticalOf env ctx = false := by
    rcases h with h | h | h | h
    · exact Or.inl h
    all_goals exact Or.inr (by simp [isCriticalOf, h])
  unfold pushAutoAnalysis
  split_ifs <;> simp_all [noRun]

theorem run_not_full (env : Env) (ctx : GameContext)
    (h : runsFull env ctx = false) :
    (pushAutoAnalysis env ctx).events = [] ∧
      (pushAutoAnalysis env ctx).llmCalls = 0 ∧
      (pushAutoAnalysis env ctx).ctx = ctx := by
  unfold pushAutoAnalysis
  split_ifs <;> simp_all [noRun, runsFull]

theorem templated_of_cheap (env : Env) (ctx : GameContext)
    (h : cheapMove env ctx) :
    ∀ e ∈ (pushAutoAnalysis env ctx).events, templatedOnly e = true := by
  have hcheap : isPlayerMove env ctx = false ∨ isCriticalOf env ctx = false := by
    rcases h with h | h | h | h
    · exact Or.inl h
    all_goals exact Or.inr (by simp [isCriticalOf, h])
  by_cases hfull : runsFull env ctx = true
  · rcases hcheap with hp | hc
    · by_cases hs : suppressedOf env ctx = true
      · rw [run_suppressed env ctx hfull hs]; simp
      · rw [run_cpu env ctx hfull hp (by simpa using hs)]
        simp [cpuTip, templatedOnly, isGeneratedPart]
    · by_cases hp : isPlayerMove env ctx = true
      · rw [run_simple env ctx hfull hp hc]
        cases hpv : env.pv <;>
          simp [simpleTip, templatedOnly, isGeneratedPart, hpv]
      · by_cases hs : suppressedOf env ctx = true
        · rw [run_suppressed env ctx hfull hs]; simp
        · rw [run_cpu env ctx hfull (by simpa using hp) (by simpa using hs)]
          simp [cpuTip, templatedOnly, isGeneratedPart]
  · rw [(run_not_full env ctx (by simpa using hfull)).1]
    simp

theorem runSeq_llm_zero (moves : List Env) :
    ∀ ctx : GameContext, allCheap moves ctx → (runSeq moves ctx).2 = 0 := by
  induction moves with
  | nil => intro ctx _; rfl
  | cons e es ih =>
    intro ctx h
    obtain ⟨h1, h2⟩ := h
    unfold runSeq
    simp [llmCalls_zero_of_cheap e ctx h1, ih _ h2]

/-! ## Helper lemmas about the broadcast hub -/

theorem broadcastDeliver_all_ok (send : Nat → Except Unit Unit) :
    ∀ l : List Nat, (∀ j ∈ l, send j = Except.ok ()) →
      broadcastDeliver send l = l := by
  intro l
  induction l with
  | nil => intro _; rfl
  | cons c rest ih =>
    intro hok
    unfold broadcastDeliver
    rw [hok c (by simp), ih (fun j hj => hok j (by simp [hj]))]

theorem broadcastDeliver_erase (send : Nat → Except Unit Unit) :
    ∀ l : List Nat, l.Nodup → ∀ k, k ∈ l → send k = Except.error () →
      (∀ j ∈ l, j ≠ k → send j = Except.ok ()) →
      broadcastDeliver send l = l.erase k := by
  intro l
  induction l with
  | nil => intro _ k hk; simp at hk
  | cons c rest ih =>
    intro hnd k hk hkerr hok
    by_cases hck : c = k
    · subst hck
      unfold broadcastDeliver
      rw [hkerr, List.erase_cons_head]
      apply broadcastDeliver_all_ok
      intro j hj
      refine hok j (by simp [hj]) ?_
      intro hjc
      exact (List.nodup_cons.mp hnd).1 (hjc ▸ hj)
    · have hkr : k ∈ rest := by
        rcases List.mem_cons.mp hk with h | h
        · exact absurd h.symm hck
        · exact h
      unfold broadcastDeliver
      rw [hok c (by simp) hck,
        ih (List.nodup_cons.mp hnd).2 k hkr hkerr
          (fun j hj hjk => hok j (by simp [hj]) hjk)]
      simp [List.erase_cons, hck]

theorem broadcastLoop_no_mut (sched : Nat → Option Nat)
    (hsched : ∀ i, sched i = none) :
    ∀ (fuel : Nat) (conns : List Nat) (idx : Nat) (delivered : List Nat),
      conns.length ≤ idx + fuel →
      broadcastLoopInterleaved sched fuel conns idx delivered =
        (conns, delivered ++ conns.drop idx) := by
  intro fuel
  induction fuel with
  | zero =>
    intro conns idx delivered h
    unfold broadcastLoopInterleaved
    rw [List.drop_eq_nil_of_le (by omega)]
    simp
  | succ n ih =>
    intro conns idx delivered h
    unfold broadcastLoopInterleaved
    by_cases hidx : idx < conns.length
    · rw [dif_pos hidx, hsched idx,
        ih conns (idx + 1) (delivered ++ [conns.get ⟨idx, hidx⟩]) (by omega)]
      rw [List.append_assoc, List.drop_eq_getElem_cons hidx]
      simp [List.get_eq_getElem]
    · rw [dif_neg hidx]
      rw [List.drop_eq_nil_of_le (by omega)]
      simp

/-! ## Claim theorems -/

/-- Claim C1: the tier classification in push_auto_analysis is a pure total
function of the delta and the material-lost flag, assigned first-match in
descending severity with strict comparisons: Blunder iff delta > 250 or
(material lost and delta > 100); else Mistake iff delta > 100; else
Inaccuracy iff delta > 30; else Great Move iff delta < -50; else Good; and
each exact boundary value (250, 100, 30, -50) falls into the less severe
tier of its comparison. -/
theorem tier_classification_strict_first_match (d : ℚ) (m : Bool) :
    (classify d m = Tier.Blunder ↔ (d > 250 ∨ (m = true ∧ d > 100)))
    ∧ (¬(d > 250 ∨ (m = true ∧ d > 100)) →
        (classify d m = Tier.Mistake ↔ d > 100))
    ∧ (¬(d > 250 ∨ (m = true ∧ d > 100)) → ¬(d > 100) →
        (classify d m = Tier.Inaccuracy ↔ d > 30))
    ∧ (¬(d > 250 ∨ (m = true ∧ d > 100)) → ¬(d > 100) → ¬(d > 30) →
        (classify d m = Tier.GreatMove ↔ d < -50))
    ∧ (¬(d > 250 ∨ (m = true ∧ d > 100)) → ¬(d > 100) → ¬(d > 30) →
        ¬(d < -50) → classify d m = Tier.Good)
    ∧ classify 250 false = Tier.Mistake
    ∧ classify 100 false = Tier.Inaccuracy
    ∧ classify 100 true = Tier.Inaccuracy
    ∧ classify 30 false = Tier.Good
    ∧ classify (-50) false = Tier.Good := by
  refine ⟨?_, ?_, ?_, ?_, ?_, by decide, by decide, by decide, by decide,
    by decide⟩
  · unfold classify; split_ifs with h1 h2 h3 h4 <;> simp_all
  · intro hB; unfold classify; split_ifs with h1 h2 h3 h4 <;> simp_all
  · intro hB hM; unfold classify; split_ifs with h1 h2 h3 h4 <;> simp_all
  · intro hB hM hI; unfold classify; split_ifs with h1 h2 h3 h4 <;> simp_all
  · intro hB hM hI hG; unfold classify
    split_ifs with h1 h2 h3 h4 <;> simp_all

/-- Claim C5: when delivery to one subscriber of the live list fails,
broadcast still delivers to all the others, returns normally, and leaves
the connection list unchanged (the failing subscriber is not removed). -/
theorem broadcast_partial_failure (m : ConnectionManager)
    (send : Nat → Except Unit Unit) (k : Nat)
    (hnd : m.active_connections.Nodup)
    (hk : k ∈ m.active_connections)
    (hkerr : send k = Except.error ())
    (hok : ∀ j ∈ m.active_connections, j ≠ k → send j = Except.ok ()) :
    ConnectionManager.broadcast m send =
      Except.ok (m, m.active_connections.erase k) := by
  unfold ConnectionManager.broadcast
  rw [broadcastDeliver_erase send m.active_connections hnd k hk hkerr hok]

/-- Claim C8 (amended): broadcast iterates the live connection list in place
by index rather than over a snapshot; with no interleaved mutation every
initially-live subscriber receives the event and the list is unchanged, but
a disconnect interleaved at a suspension point can shift the list and make
the in-progress publish skip a subscriber. -/
theorem broadcast_inplace_iteration :
    (∀ conns : List Nat,
      broadcastRun (fun _ => none) conns = (conns, conns))
    ∧ (broadcastRun schedDisc1 [1, 2, 3]).2 = [1, 3] := by
  constructor
  · intro conns
    unfold broadcastRun
    rw [broadcastLoop_no_mut (fun _ => none) (fun _ => rfl) conns.length
      conns 0 [] (by omega)]
    simp
  · rfl

/-- Claim C9 (amended): connect returns success exactly when accept and both
personal sends succeed; a failure during accept leaves the subscriber
unregistered, but a failure after accept leaves it registered even though
failure is returned; on success exactly one greeting and one state snapshot
have been sent personally to the new subscriber and nothing is broadcast. -/
theorem connect_registration_amended (m : ConnectionManager) (ws : Nat)
    (a g s : Bool) (hws : ws ∉ m.active_connections) :
    ((a = false → (ConnectionManager.connect m ws a g s).success = false ∧
        ws ∉ (ConnectionManager.connect m ws a g s).manager.active_connections)
     ∧ (a = true →
        ws ∈ (ConnectionManager.connect m ws a g s).manager.active_connections)
     ∧ ((ConnectionManager.connect m ws a g s).success = true ↔
        (a = true ∧ g = true ∧ s = true))
     ∧ ((ConnectionManager.connect m ws a g s).success = true →
        (ConnectionManager.connect m ws a g s).sentTo =
          [(ws, PersonalMsg.greeting), (ws, PersonalMsg.stateSnapshot)] ∧
        (ConnectionManager.connect m ws a g s).broadcasts = 0)) := by
  cases a <;> cases g <;> cases s <;>
    simp_all [ConnectionManager.connect]

/-- Claim C2 (amended): the generative backend is invoked only for
coached-side moves classified Mistake or Blunder.  For a coached-side move
of tier Good, Inaccuracy or Great Move, and for any non-coached-side move,
the generative call count is 0 and any event published is assembled from
templated fragments only (a pacing-suppressed or skipped move publishes no
message at all); across any sequence of such moves the total call count
stays 0. -/
theorem cost_gate_amended :
    (∀ env ctx, cheapMove env ctx →
      (pushAutoAnalysis env ctx).llmCalls = 0 ∧
      ∀ e ∈ (pushAutoAnalysis env ctx).events, templatedOnly e = true)
    ∧ (∀ moves ctx, allCheap moves ctx → (runSeq moves ctx).2 = 0) :=
  ⟨fun env ctx h =>
    ⟨llmCalls_zero_of_cheap env ctx h, templated_of_cheap env ctx h⟩,
   fun moves ctx h => runSeq_llm_zero moves ctx h⟩

/-- Claim C3: in a run that reaches classification, a critical tier
(Mistake/Blunder) records the last-critical-notification timestamp
unconditionally; a non-coached-side non-critical move publishes no event
when strictly fewer than 5 time units have elapsed since the last critical
notification, and publishes exactly the templated CPU event when 5 or more
units have elapsed. -/
theorem pacing_policy (env : Env) (ctx : GameContext)
    (hfull : runsFull env ctx = true) :
    (isCriticalOf env ctx = true →
      (pushAutoAnalysis env ctx).ctx.last_critical_tip_time = env.currentTime)
    ∧ (isPlayerMove env ctx = false → isCriticalOf env ctx = false →
        env.currentTime - ctx.last_critical_tip_time < 5 →
        (pushAutoAnalysis env ctx).events = [])
    ∧ (isPlayerMove env ctx = false → isCriticalOf env ctx = false →
        5 ≤ env.currentTime - ctx.last_critical_tip_time →
        (pushAutoAnalysis env ctx).events = [cpuTip env ctx]) := by
  refine ⟨?_, ?_, ?_⟩
  · intro hc
    rw [pushAutoAnalysis_ctx env ctx hfull]
    exact ctxAfterPacing_time_of_critical env ctx hc
  · intro hp hc hlt
    have hs : suppressedOf env ctx = true := by
      simp [suppressedOf, hp, hc, hlt]
    rw [run_suppressed env ctx hfull hs]
  · intro hp hc hge
    have hs : suppressedOf env ctx = false := by
      simp [suppressedOf, hp, hc, not_lt.mpr hge]
    rw [run_cpu env ctx hfull hp hs]

/-- Claim C4 (amended): in a run that reaches classification, the score
stored as the rolling baseline is the engine score negated into the
perspective of the side that just moved; when the mover is the coached
side this coincides with the coached side's perspective, but for an
analyzed non-coached-side move the stored perspective is the opponent's,
not a fixed side's. -/
theorem mover_perspective_baseline (env : Env) (ctx : GameContext)
    (hfull : runsFull env ctx = true) :
    (pushAutoAnalysis env ctx).ctx.prev_score = scoreAfterPlayerPov env
    ∧ (isPlayerMove env ctx = true →
        (pushAutoAnalysis env ctx).ctx.prev_score =
          coachedPovScore ctx.player_color (sideWhoMoved env)
            (env.scoreAfterRaw.getD 0)) := by
  have h1 : (pushAutoAnalysis env ctx).ctx.prev_score =
      scoreAfterPlayerPov env := by
    rw [pushAutoAnalysis_ctx env ctx hfull, ctxAfterPacing_prev_score]
  refine ⟨h1, ?_⟩
  intro hp
  have hside : sideWhoMoved env = ctx.player_color := by
    simpa [isPlayerMove] using hp
  rw [h1]
  unfold coachedPovScore scoreAfterPlayerPov
  rw [if_pos hside]

/-- Claim C6 (code bug): coach_query and the game_review drill place
engine.quit inside the try body of a try/except, so an exception raised by
engine.analyse skips termination and leaks the spawned process; the other
engine-spawning operations (get_board_analysis, play_engine_move,
push_auto_analysis) terminate the engine on every exit path. -/
theorem engine_lifecycle_leak :
    coachQueryEngineUse true true true false = ⟨true, false⟩
    ∧ gameReviewEngineUse true true true true false = ⟨true, false⟩
    ∧ (∀ p s a, (getBoardAnalysisEngineUse p s a).spawned = true →
        (getBoardAnalysisEngineUse p s a).terminated = true)
    ∧ (∀ g s p, (playEngineMoveEngineUse g s p).spawned = true →
        (playEngineMoveEngineUse g s p).terminated = true)
    ∧ (∀ env ctx, (pushAutoAnalysis env ctx).engineSpawned = true →
        (pushAutoAnalysis env ctx).engineTerminated = true) := by
  refine ⟨rfl, rfl, ?_, ?_, ?_⟩
  · intro p s a h
    cases p <;> cases s <;> cases a <;>
      simp_all [getBoardAnalysisEngineUse]
  · intro g s p h
    cases g <;> cases s <;> cases p <;>
      simp_all [playEngineMoveEngineUse]
  · intro env ctx h
    have heq : (pushAutoAnalysis env ctx).engineTerminated =
        (pushAutoAnalysis env ctx).engineSpawned := by
      unfold pushAutoAnalysis
      split_ifs <;> rfl
    rw [heq, h]

/-- Claim C7 (code bug): with the engine binary absent, the analysis
pipeline degrades to a silent no-op and get_board_analysis returns a normal
error string, but play_engine_move calls popen_uci unguarded and the
spawn exception propagates to its caller. -/
theorem engine_unavailable_behavior :
    play_engine_move false true true = ToolOutcome.raised
    ∧ get_board_analysis true true true =
        ToolOutcome.ok ("Error: Stockfish not found.")
    ∧ (∀ env ctx, env.stockfishExists = false →
        pushAutoAnalysis env ctx = noRun ctx) := by
  refine ⟨rfl, rfl, ?_⟩
  intro env ctx h
  unfold pushAutoAnalysis
  simp [h]

/-- Claim C10 (amended): on the expensive path, when the generative backend
fails or returns an empty response and the engine best move passed the
legality re-check with a successful SAN conversion, the published message
contains the fallback text together with the best move in SAN; when the
legality re-check fails the generative call is skipped and the message
contains the fallback text, but the best move is cited only if its SAN
conversion happens to succeed — when SAN conversion fails the move is
omitted entirely. -/
theorem fallback_message_amended (env : Env) (ctx : GameContext)
    (p : PvInfo) (hfull : runsFull env ctx = true)
    (hp : isPlayerMove env ctx = true) (hc : isCriticalOf env ctx = true)
    (hpv : env.pv = some p) :
    ((∀ s, p.candidateLegal = true → p.san = some s →
       (env.llmOutcome = Except.error () ∨ env.llmOutcome = Except.ok ("")) →
       ((pushAutoAnalysis env ctx).events =
          [holdingTip env ctx, finalTip env ctx]
        ∧ MsgPart.fallbackText ∈ (finalTip env ctx).parts
        ∧ MsgPart.betterMove s ∈ (finalTip env ctx).parts))
     ∧ (p.candidateLegal = false →
       ((pushAutoAnalysis env ctx).llmCalls = 0
        ∧ MsgPart.fallbackText ∈ (finalTip env ctx).parts
        ∧ (p.san = none →
           (finalTip env ctx).parts.filter isBetterMovePart = [])))) := by
  have hrun := run_stage3 env ctx hfull hp hc
  constructor
  · intro s hleg hsan hfail
    have hresp : llmResponseOf env = none ∨ llmResponseOf env = some ("") := by
      unfold llmResponseOf
      cases hapi : env.apiKeySet
      · simp
      · rcases hfail with hf | hf <;>
          simp [bestMoveSanOf, hpv, hleg, hf]
    refine ⟨by rw [hrun], ?_, ?_⟩
    · rcases hresp with h | h <;>
        simp [finalTip, finalParts, h, fallbackParts, hpv, hsan]
    · rcases hresp with h | h <;>
        simp [finalTip, finalParts, h, fallbackParts, hpv, hsan]
  · intro hleg
    have hbms : bestMoveSanOf env = none := by
      simp [bestMoveSanOf, hpv, hleg]
    have hresp : llmResponseOf env = none := by
      simp [llmResponseOf, hbms]
    refine ⟨?_, ?_, ?_⟩
    · rw [hrun]
      simp [hbms]
    · simp [finalTip, finalParts, hresp, fallbackParts, hpv]
    · intro hsan
      cases hhot : (hotSquaresOf env).isEmpty <;>
        simp [finalTip, finalParts, hresp, fallbackParts, hpv, hsan,
          isBetterMovePart, hhot]

/-! ## Counterexamples and witnesses on concrete inputs

The rational arithmetic operations are irreducible by default in the
library; evaluation of the model on concrete inputs needs them reducible. -/

attribute [local semireducible] Rat.add Rat.sub Rat.mul

/-- Claim C1 witness: a delta of 200 without material loss classifies as a
Mistake, via the first-match characterization. -/
theorem tier_classification_strict_first_match_w :
    classify 200 false = Tier.Mistake :=
  ((tier_classification_strict_first_match 200 false).2.1
    (by decide)).mpr (by decide)

/-- Claim C2 counterexample: a fully analyzed non-coached-side move of tier
Good arriving 2 time units after a critical notification is processed by the
pipeline but no message at all is assembled for it (the claim asserts a
templated message is assembled for every non-coached-side move); the
generative call count is 0. -/
theorem cost_gate_counterexample :
    runsFull envCpuQuiet ctxZero = true
    ∧ isPlayerMove envCpuQuiet ctxZero = false
    ∧ moveTier envCpuQuiet ctxZero = Tier.Good
    ∧ envCpuQuiet.currentTime - ctxZero.last_critical_tip_time < 5
    ∧ (pushAutoAnalysis envCpuQuiet ctxZero).events = []
    ∧ (pushAutoAnalysis envCpuQuiet ctxZero).llmCalls = 0 := by decide

/-- Claim C2 witness: a concrete cheap move and the singleton sequence made
of it yield a generative call count of 0. -/
theorem cost_gate_amended_w :
    (pushAutoAnalysis envCpuLater ctxZero).llmCalls = 0
    ∧ (runSeq [envCpuLater] ctxZero).2 = 0 :=
  ⟨(cost_gate_amended.1 envCpuLater ctxZero (Or.inr (Or.inl (by decide)))).1,
   cost_gate_amended.2 [envCpuLater] ctxZero
     ⟨Or.inr (Or.inl (by decide)), trivial⟩⟩

/-- Claim C3 witness: a critical CPU move records the notification time; a
quiet CPU move at 2 units is suppressed; the same move at 6 units publishes
the templated CPU event. -/
theorem pacing_policy_w :
    (pushAutoAnalysis envCpuMistake ctxCpuOn).ctx.last_critical_tip_time =
      envCpuMistake.currentTime
    ∧ (pushAutoAnalysis envCpuQuiet ctxZero).events = []
    ∧ (pushAutoAnalysis envCpuLater ctxZero).events =
        [cpuTip envCpuLater ctxZero] :=
  ⟨(pacing_policy envCpuMistake ctxCpuOn (by decide)).1 (by decide),
   (pacing_policy envCpuQuiet ctxZero (by decide)).2.1
     (by decide) (by decide) (by decide),
   (pacing_policy envCpuLater ctxZero (by decide)).2.2
     (by decide) (by decide) (by decide)⟩

/-- Claim C4 counterexample: a non-coached-side move analyzed with CPU
analysis enabled stores the baseline as -100 — the mover's perspective —
while the coached side's perspective of the same engine score is +100, so
the stored score is not expressed from the coached side's perspective. -/
theorem fixed_perspective_counterexample :
    runsFull envCpuMistake ctxCpuOn = true
    ∧ isPlayerMove envCpuMistake ctxCpuOn = false
    ∧ (pushAutoAnalysis envCpuMistake ctxCpuOn).ctx.prev_score = -100
    ∧ coachedPovScore ctxCpuOn.player_color (sideWhoMoved envCpuMistake)
        ((envCpuMistake.scoreAfterRaw).getD 0) = 100
    ∧ (pushAutoAnalysis envCpuMistake ctxCpuOn).ctx.prev_score ≠
        coachedPovScore ctxCpuOn.player_color (sideWhoMoved envCpuMistake)
          ((envCpuMistake.scoreAfterRaw).getD 0) := by decide

/-- Claim C4 witness: for a coached-side move the stored baseline does
coincide with the coached side's perspective. -/
theorem mover_perspective_baseline_w :
    (pushAutoAnalysis envBase ctxZero).ctx.prev_score =
      coachedPovScore ctxZero.player_color (sideWhoMoved envBase)
        ((envBase.scoreAfterRaw).getD 0) :=
  (mover_perspective_baseline envBase ctxZero (by decide)).2 (by decide)

/-- Claim C5 witness: broadcasting to connections 1 and 2 where the send to
2 fails still delivers to 1, returns normally, and keeps both connections
in the list. -/
theorem broadcast_partial_failure_w :
    ConnectionManager.broadcast ⟨[1, 2]⟩ sendFail2 =
      Except.ok (⟨[1, 2]⟩, [1]) :=
  broadcast_partial_failure ⟨[1, 2]⟩ sendFail2 2
    (by decide) (by decide) (by decide) (by decide)

/-- Claim C6 witness: the try/finally operations terminate the engine even
when their engine interaction fails. -/
theorem engine_lifecycle_leak_w :
    (getBoardAnalysisEngineUse true true false).terminated = true
    ∧ (playEngineMoveEngineUse false true false).terminated = true :=
  ⟨engine_lifecycle_leak.2.2.1 true true false rfl,
   engine_lifecycle_leak.2.2.2.1 false true false rfl⟩

/-- Claim C7 witness: with the binary absent the analysis pipeline is a
no-op that publishes nothing. -/
theorem engine_unavailable_behavior_w :
    pushAutoAnalysis envNoEngine ctxBase = noRun ctxBase :=
  engine_unavailable_behavior.2.2 envNoEngine ctxBase rfl

/-- Claim C8 counterexample: with live list [1, 2, 3], a disconnect of
subscriber 1 interleaved during the suspended send to element 0 shifts the
list so the loop skips subscriber 2: the publish delivers to [1, 3], not to
the snapshot [1, 2, 3] the claim asserts. -/
theorem broadcast_snapshot_counterexample :
    (broadcastRun schedDisc1 [1, 2, 3]).1 = [2, 3]
    ∧ (broadcastRun schedDisc1 [1, 2, 3]).2 = [1, 3]
    ∧ (broadcastRun schedDisc1 [1, 2, 3]).2 ≠ [1, 2, 3] := by decide

/-- Claim C9 counterexample: when accept succeeds but the greeting send
fails, connect returns failure yet the subscriber remains registered in the
active connection list, contradicting the claim that on failure the
subscriber is not present. -/
theorem connect_failure_counterexample :
    (ConnectionManager.connect ⟨[]⟩ 7 true false true).success = false
    ∧ 7 ∈ (ConnectionManager.connect ⟨[]⟩ 7 true false
        true).manager.active_connections := by decide

/-- Claim C9 witness: a fully successful connect registers the subscriber
and sends it exactly the greeting and the state snapshot, personally. -/
theorem connect_registration_amended_w :
    (ConnectionManager.connect ⟨[]⟩ 7 true true true).sentTo =
      [(7, PersonalMsg.greeting), (7, PersonalMsg.stateSnapshot)]
    ∧ 7 ∈ (ConnectionManager.connect ⟨[]⟩ 7 true true
        true).manager.active_connections :=
  ⟨((connect_registration_amended ⟨[]⟩ 7 true true true
      (by decide)).2.2.2 (by decide)).1,
   (connect_registration_amended ⟨[]⟩ 7 true true true
      (by decide)).2.1 rfl⟩

/-- Claim C10 counterexample: a coached-side Blunder whose engine candidate
fails the legality re-check (with an api key set) skips the generative call
and publishes the fallback text, but the published message cites no best
move in any notation — the claim asserts it still contains the engine best
move in notation form. -/
theorem fallback_message_counterexample :
    isPlayerMove envIllegalBest ctxBlunder = true
    ∧ moveTier envIllegalBest ctxBlunder = Tier.Blunder
    ∧ envIllegalBest.apiKeySet = true
    ∧ envIllegalBest.pv = some pvIllegal
    ∧ pvIllegal.candidateLegal = false
    ∧ (pushAutoAnalysis envIllegalBest ctxBlunder).llmCalls = 0
    ∧ MsgPart.fallbackText ∈
        ((pushAutoAnalysis envIllegalBest ctxBlunder).events.getD 1
          default).parts
    ∧ ((pushAutoAnalysis envIllegalBest ctxBlunder).events.getD 1
          default).parts.filter isBetterMovePart = [] := by decide

/-- Claim C10 witness: on a backend failure with a verified legal best move,
the final published message contains the fallback text and the best move in
SAN. -/
theorem fallback_message_amended_w :
    (pushAutoAnalysis envBackendFail ctxBlunder).events =
      [holdingTip envBackendFail ctxBlunder,
       finalTip envBackendFail ctxBlunder]
    ∧ MsgPart.betterMove ("Nf3") ∈
        (finalTip envBackendFail ctxBlunder).parts := by
  have h := (fallback_message_amended envBackendFail ctxBlunder pvLegal
    (by decide) (by decide) (by decide) rfl).1 ("Nf3") rfl rfl (Or.inl rfl)
  exact ⟨h.1, h.2.2⟩

end ChessMCP
